import Mathlib

/-!
Shallow embedding of `src/emdat_streamlit_app.py`, an EM-DAT disaster-data
dashboard.  A pandas dataframe is modelled as a `List Row`; a cell is a
`Val` (a string, an integer, or a missing value `NaN`/`None`, modelled as
`Val.null`).  Each view renderer's data transformations (numeric coercion,
filtering, grouping, bucketing, sorting) are translated function by
function; the renderer's user-visible output is modelled as a list of
`ROut` render events (warnings, charts, tables).
-/

namespace Emdat

/-- A dataframe cell: `null` models pandas `NaN`/`None`, `int` a numeric
value, `str` a string value. -/
inductive Val where
  | null : Val
  | int : Int → Val
  | str : String → Val
deriving DecidableEq, Repr

/-- Parse a run of decimal digits into a number, `none` on any non-digit
character. -/
def parseDigits : List Char → Nat → Option Nat
  | [], acc => some acc
  | c :: cs, acc =>
    if c.isDigit then parseDigits cs (10 * acc + (c.toNat - 48)) else none

/-- The integer denoted by a string, if any: an optional minus sign
followed by at least one decimal digit. -/
def parseInt? (s : String) : Option Int :=
  match s.data with
  | [] => none
  | '-' :: cs =>
    if cs.isEmpty then none else (parseDigits cs 0).map (fun n => -(n : Int))
  | cs => (parseDigits cs 0).map (fun n => (n : Int))

/-- `pd.to_numeric(v, errors="coerce")` on one cell: numbers pass through,
strings denoting numbers become numbers, everything else becomes
missing. -/
def toNumeric : Val → Val
  | Val.null => Val.null
  | Val.int n => Val.int n
  | Val.str s =>
    match parseInt? s with
    | some n => Val.int n
    | none => Val.null

/-- The numeric content of a cell after coercion, if any. -/
def numOpt (v : Val) : Option Int :=
  match toNumeric v with
  | Val.int n => some n
  | _ => none

/-- Does the cell hold a (coerced) number?  `isNumV v = true` exactly when
the cell survives `dropna` after numeric coercion. -/
def isNumV : Val → Bool
  | Val.int _ => true
  | _ => false

/-- The string content of a cell, if any; `none` models a `NaN` dropped by
`dropna()` on a string column. -/
def strOpt : Val → Option String
  | Val.str s => some s
  | _ => none

/-- pandas `==` comparison of a cell against a string scalar: `NaN == s`
is `False`. -/
def valEqStr (v : Val) (s : String) : Bool :=
  match v with
  | Val.str t => t = s
  | _ => false

/-- `cell >= n` on a numeric scalar; comparisons against `NaN` are
`False` in pandas. -/
def valGeInt (v : Val) (n : Int) : Bool :=
  match v with
  | Val.int m => n ≤ m
  | _ => false

/-- `cell <= n` on a numeric scalar; comparisons against `NaN` are
`False` in pandas. -/
def valLeInt (v : Val) (n : Int) : Bool :=
  match v with
  | Val.int m => m ≤ n
  | _ => false

/-- One flattened EM-DAT record.  The columns the renderers touch get
their own fields (`disaster_info.disaster_type`, `timeline.start_year`,
`location_info.country`, `location_info.iso`); the eight numeric impact /
financial columns live in the association list `metricCols`, keyed by
their dotted column names. -/
structure Row where
  disaster_type : Val
  start_year : Val
  country : Val
  iso : Val
  metricCols : List (String × Val)
deriving DecidableEq, Repr

/-- The eight aggregation columns of `disaster_impact_comparison_table`
(the `metrics` list, source lines 139-148); `bar_chart_disaster_vs_impact`
offers the same eight columns. -/
def metrics : List String :=
  ["impact_info.total_deaths",
   "financial_info.reconstruction_cost_usd_adjusted",
   "financial_info.insured_damage_usd_adjusted",
   "financial_info.total_damage_usd_adjusted",
   "impact_info.injured_number",
   "impact_info.affected_number",
   "impact_info.homeless_number",
   "impact_info.total_affected"]

/-- Column access `df[m]` on one row for a metric column; a column absent
from the record is missing (`pd.json_normalize` fills it with `NaN`). -/
def getMetric (r : Row) (m : String) : Val :=
  (r.metricCols.lookup m).getD Val.null

/-- The disaster-type column with `NaN` entries dropped, as
`value_counts` / `.dropna().unique()` see it. -/
def dtypeCol (rows : List Row) : List String :=
  rows.filterMap (fun r => strOpt r.disaster_type)

/-- Descending order on category counts, used by `value_counts()` (and
hence by `nlargest(10)` / `[:10]`). -/
def countDesc : (String × Nat) → (String × Nat) → Prop :=
  fun p q => q.2 ≤ p.2

instance : DecidableRel countDesc := fun p q => inferInstanceAs (Decidable (q.2 ≤ p.2))

/-- `Series.value_counts()`: one `(value, count)` pair per distinct
non-null value, sorted by count descending. -/
def valueCounts (xs : List String) : List (String × Nat) :=
  List.insertionSort countDesc (xs.dedup.map (fun v => (v, xs.count v)))

/-- `value_counts().nlargest(10)` (equally, `value_counts()[:10]`). -/
def top10 (xs : List String) : List (String × Nat) :=
  (valueCounts xs).take 10

/-- `value_counts().iloc[10:].sum()` (equally, `value_counts()[10:].sum()`):
the size of the \x22Others\x22 bucket. -/
def othersCount (xs : List String) : Nat :=
  (((valueCounts xs).drop 10).map Prod.snd).sum

/-- The pie buckets both pie charts draw: the ten largest categories plus
an \x22Others\x22 bucket appended only when its size is positive (source
lines 67-71 and 257-261). -/
def pieBuckets (xs : List String) : List (String × Nat) :=
  top10 xs ++ (if 0 < othersCount xs then [("Others", othersCount xs)] else [])

/-- `disaster_labels` of `pie_chart_disaster_type` (source line 70). -/
def pieLabels (xs : List String) : List String :=
  (top10 xs).map Prod.fst ++ (if 0 < othersCount xs then ["Others"] else [])

/-- `disaster_sizes` of `pie_chart_disaster_type` (source line 71). -/
def pieSizes (xs : List String) : List Nat :=
  (top10 xs).map Prod.snd ++ (if 0 < othersCount xs then [othersCount xs] else [])

/-- A render event a view renderer emits: a user-visible warning string,
a drawn chart, or a drawn table. -/
inductive ROut where
  | warning : String → ROut
  | chart : ROut
  | table : ROut
deriving DecidableEq, Repr

/-- Is a render event a user-visible warning? -/
def isWarning : ROut → Bool
  | ROut.warning _ => true
  | _ => false

/-! ## Line graph of the disaster trend (source lines 86-127) -/

/-- The in-place write of `line_graph_disaster_trend`, source line 88:
`df["timeline.start_year"] = pd.to_numeric(..., errors="coerce")` coerces
the start-year column of the shared dataframe.  (The later `dropna` /
`astype(int)` rebind the local name and do not touch the caller's frame.) -/
def lineTrendEffect (rows : List Row) : List Row :=
  rows.map (fun r => { r with start_year := toNumeric r.start_year })

/-- The integer start year of a row whose start-year cell is numeric. -/
def yearIntOf (r : Row) : Int :=
  match r.start_year with
  | Val.int n => n
  | _ => 0

/-- Row order by start year, for `df.sort_values("timeline.start_year")`. -/
def yearAsc : Row → Row → Prop :=
  fun a b => yearIntOf a ≤ yearIntOf b

instance : DecidableRel yearAsc :=
  fun a b => inferInstanceAs (Decidable (yearIntOf a ≤ yearIntOf b))

/-- Source lines 88-92: coerce the start-year column, drop rows whose
start year failed coercion, sort by start year. -/
def trendPrep (rows : List Row) : List Row :=
  List.insertionSort yearAsc ((lineTrendEffect rows).filter (fun r => isNumV r.start_year))

/-- `df_filtered` of `line_graph_disaster_trend` (source lines 109-113):
keep the rows with `start_year >= s`, `start_year <= e` and the selected
disaster type. -/
def trendFiltered (rows : List Row) (s e : Int) (t : String) : List Row :=
  (trendPrep rows).filter
    (fun r => valGeInt r.start_year s && valLeInt r.start_year e && valEqStr r.disaster_type t)

/-- `df_trend` (source line 115): `groupby("timeline.start_year").size()`,
one `(year, count)` pair per distinct year of the filtered rows, keys in
ascending order as `groupby` returns them. -/
def trendCounts (rows : List Row) (s e : Int) (t : String) : List (Int × Nat) :=
  let ys := (trendFiltered rows s e t).map yearIntOf
  (List.insertionSort (α := Int) (· ≤ ·) ys.dedup).map (fun y => (y, ys.count y))

/-- Source lines 117-127: an empty trend writes the warning
`⚠️ No Records found.`; otherwise the line chart is drawn. -/
def lineTrendRender (rows : List Row) (s e : Int) (t : String) : List ROut :=
  if (trendCounts rows s e t).isEmpty then [ROut.warning "⚠️ No Records found."]
  else [ROut.chart]

/-! ## Disaster impact comparison table (source lines 130-187) -/

/-- `disaster_types` (source line 133): the sorted distinct non-null
disaster types. -/
def disasterTypes (rows : List Row) : List String :=
  List.insertionSort (α := String) (· ≤ ·) (dtypeCol rows).dedup

/-- `disaster_b_options` (source line 157): every type except the one
chosen as Disaster A. -/
def disasterBOptions (types : List String) (a : String) : List String :=
  types.filter (fun d => d != a)

/-- The in-place write of source line 150 on one row's metric cells:
`df[metrics] = df[metrics].apply(pd.to_numeric, errors="coerce")`. -/
def coerceMetrics (ps : List (String × Val)) : List (String × Val) :=
  ps.map (fun p => if p.1 ∈ metrics then (p.1, toNumeric p.2) else p)

/-- Source line 150 on one row: the record with its eight metric cells
coerced. -/
def compCoerceRow (r : Row) : Row :=
  { r with metricCols := coerceMetrics r.metricCols }

/-- The frame effect of `disaster_impact_comparison_table` on the shared
dataframe (source line 150): the eight metric columns are coerced in
place. -/
def comparisonEffect (rows : List Row) : List Row :=
  rows.map compCoerceRow

/-- Does a coerced row keep at least one metric value?  Rows failing this
are dropped by `dropna(subset=metrics, how="all")` (source line 151). -/
def hasAnyMetric (r : Row) : Bool :=
  metrics.any (fun m => isNumV (getMetric r m))

/-- The local frame of the comparison table after source lines 150-151:
metric columns coerced, rows with all metrics missing dropped. -/
def compPrep (rows : List Row) : List Row :=
  (comparisonEffect rows).filter hasAnyMetric

/-- The metric values entering `df[df[...] == t][metrics].mean()` for
disaster type `t` and metric column `m`: the non-missing coerced values
of column `m` among the kept rows of type `t` (pandas `mean` skips
missing values). -/
def compMeanVals (rows : List Row) (t m : String) : List Int :=
  ((compPrep rows).filter (fun r => valEqStr r.disaster_type t)).filterMap
    (fun r => numOpt (getMetric r m))

/-- The arithmetic mean of a list of integers; `none` models the `NaN`
pandas returns for an empty or all-missing column. -/
def meanList (l : List Int) : Option ℚ :=
  if l.isEmpty then none else some ((l.map (fun n => (n : ℚ))).sum / (l.length : ℚ))

/-- `avg_a[m]` / `avg_b[m]` (source lines 169-170): the mean impact of
one disaster type in one metric column. -/
def compMean (rows : List Row) (t m : String) : Option ℚ :=
  meanList (compMeanVals rows t m)

/-- The render events of `disaster_impact_comparison_table` for a chosen
Disaster A (source lines 130-187): fewer than two available types warns
and returns; an empty Disaster-B option list warns and returns; otherwise
the comparison table is rendered (Disaster B defaults to the first
option). -/
def comparisonRender (rows : List Row) (a : String) : List ROut :=
  let types := disasterTypes rows
  if types.length < 2 then
    [ROut.warning "Not enough disaster types available for comparison."]
  else
    match (disasterBOptions types a).head? with
    | none => [ROut.warning "Please select different disasters for comparison."]
    | some _ => [ROut.table]

/-! ## Country-wise data page (source lines 190-203) -/

/-- `df_filtered` of `country_wise_data_page` (source lines 198-201):
the sentinel `All Countries` keeps the whole table, any other selection
keeps the rows of that country. -/
def countryPageFilter (rows : List Row) (sel : String) : List Row :=
  if sel = "All Countries" then rows
  else rows.filter (fun r => valEqStr r.country sel)

/-! ## Bar chart of disaster vs impact (source lines 206-238) -/

/-- The in-place write of source line 223 on one row: coerce the selected
metric column. -/
def barCoerceRow (r : Row) (m : String) : Row :=
  { r with metricCols := r.metricCols.map (fun p => if p.1 = m then (p.1, toNumeric p.2) else p) }

/-- The in-place write of source line 223 on the whole frame. -/
def barCoerceCol (rows : List Row) (m : String) : List Row :=
  rows.map (fun r => barCoerceRow r m)

/-- `df_filtered` (source line 225): drop the rows whose selected-metric
cell is missing after coercion. -/
def barFiltered (rows : List Row) (m : String) : List Row :=
  (barCoerceCol rows m).filter (fun r => isNumV (getMetric r m))

/-- One group's sum in `groupby("disaster_info.disaster_type")[m].sum()`
(source line 227). -/
def barGroupSum (rows : List Row) (m t : String) : Int :=
  (((barFiltered rows m).filter (fun r => valEqStr r.disaster_type t)).filterMap
    (fun r => numOpt (getMetric r m))).sum

/-- The group keys of source line 227: the distinct non-null disaster
types of the filtered rows, in the ascending key order `groupby` uses. -/
def barKeys (rows : List Row) (m : String) : List String :=
  List.insertionSort (α := String) (· ≤ ·) (dtypeCol (barFiltered rows m)).dedup

/-- Order on `(type, sum)` groups by summed metric value, for
`sort_values(by=selected_metric, ascending=True)` (source line 228). -/
def sumAsc : (String × Int) → (String × Int) → Prop :=
  fun p q => p.2 ≤ q.2

instance : DecidableRel sumAsc :=
  fun p q => inferInstanceAs (Decidable (p.2 ≤ q.2))

instance : IsTotal (String × Int) sumAsc :=
  ⟨fun p q => Int.le_total p.2 q.2⟩

instance : IsTrans (String × Int) sumAsc :=
  ⟨fun _ _ _ h h2 => le_trans h h2⟩

/-- `df_grouped` (source lines 227-228): per-type sums of the selected
metric, sorted ascending by the summed value. -/
def barGrouped (rows : List Row) (m : String) : List (String × Int) :=
  List.insertionSort sumAsc ((barKeys rows m).map (fun t => (t, barGroupSum rows m t)))

/-- The render events of `bar_chart_disaster_vs_impact` (source lines
225-238): the horizontal bar chart is always drawn — the function has no
empty-result branch and emits no warning. -/
def barChartRender (rows : List Row) (m : String) : List ROut :=
  [ROut.chart]

/-! ## Country-scoped pie chart (source lines 241-267) -/

/-- The render events of `pie_chart_disaster_type_by_country` (source
lines 249-267): an empty country filter warns and returns, otherwise the
pie chart is drawn. -/
def pieByCountryRender (rows : List Row) (c : String) : List ROut :=
  if (rows.filter (fun r => valEqStr r.country c)).isEmpty then
    [ROut.warning ("No disaster data available for " ++ c ++ ".")]
  else [ROut.chart]

/-! ## World map (source lines 270-309) -/

/-- A Flood record with start year 2000. -/
def floodA : Row :=
  { disaster_type := Val.str "Flood", start_year := Val.int 2000,
    country := Val.str "Japan", iso := Val.str "JPN",
    metricCols := [("impact_info.total_deaths", Val.int 10)] }

/-- A second Flood record with start year 2000. -/
def floodB : Row :=
  { disaster_type := Val.str "Flood", start_year := Val.int 2000,
    country := Val.str "Japan", iso := Val.str "JPN",
    metricCols := [("impact_info.total_deaths", Val.int 20)] }

/-- A Flood record with start year 2001. -/
def floodC : Row :=
  { disaster_type := Val.str "Flood", start_year := Val.int 2001,
    country := Val.str "Chile", iso := Val.str "CHL",
    metricCols := [("impact_info.total_deaths", Val.str "many")] }

/-- A record whose start-year cell is a non-numeric string: numeric
coercion rewrites it to a missing value. -/
def badYearRow : Row :=
  { disaster_type := Val.str "Storm", start_year := Val.str "unknown",
    country := Val.str "Chile", iso := Val.str "CHL",
    metricCols := [("impact_info.total_deaths", Val.int 3)] }

end Emdat

namespace Emdat

/-! ## Lemmas about `value_counts` and the pie bucketing -/

theorem valueCounts_perm (xs : List String) :
    List.Perm (valueCounts xs) (xs.dedup.map (fun v => (v, xs.count v))) :=
  List.perm_insertionSort _ _

theorem valueCounts_length (xs : List String) :
    (valueCounts xs).length = xs.dedup.length := by
  rw [(valueCounts_perm xs).length_eq, List.length_map]

theorem valueCounts_snd_sum (xs : List String) :
    ((valueCounts xs).map Prod.snd).sum = xs.length := by
  rw [((valueCounts_perm xs).map Prod.snd).sum_eq, List.map_map]
  simpa [Function.comp] using List.sum_map_count_dedup_eq_length xs

theorem valueCounts_snd_pos (xs : List String) (p : String × Nat)
    (hp : p ∈ valueCounts xs) : 0 < p.2 := by
  obtain ⟨v, hv, rfl⟩ := List.mem_map.mp ((valueCounts_perm xs).mem_iff.mp hp)
  exact List.count_pos_iff.mpr (List.mem_dedup.mp hv)

theorem top10_snd_sum_add_others (xs : List String) :
    ((top10 xs).map Prod.snd).sum + othersCount xs = xs.length := by
  have h := valueCounts_snd_sum xs
  rw [← List.take_append_drop 10 (valueCounts xs), List.map_append, List.sum_append] at h
  exact h

theorem others_pos_iff (xs : List String) :
    0 < othersCount xs ↔ 10 < xs.dedup.length := by
  constructor
  · intro h
    by_contra hle
    push_neg at hle
    have hd : (valueCounts xs).drop 10 = [] :=
      List.drop_eq_nil_of_le (by rw [valueCounts_length]; exact hle)
    rw [othersCount, hd] at h
    simp at h
  · intro h
    by_contra h0
    push_neg at h0
    have h0' : (((valueCounts xs).drop 10).map Prod.snd).sum = 0 := Nat.le_zero.mp h0
    have hall := List.sum_eq_zero_iff.mp h0'
    have hlen : 0 < ((valueCounts xs).drop 10).length := by
      rw [List.length_drop, valueCounts_length]
      omega
    obtain ⟨p, hp⟩ := List.exists_mem_of_length_pos hlen
    have hz := hall p.2 (List.mem_map.mpr ⟨p, hp, rfl⟩)
    have hpos := valueCounts_snd_pos xs p (List.mem_of_mem_drop hp)
    omega

theorem top10_length_le (xs : List String) : (top10 xs).length ≤ 10 := by
  rw [top10, List.length_take]
  exact min_le_left _ _

theorem pieBuckets_length_le (xs : List String) : (pieBuckets xs).length ≤ 11 := by
  rw [pieBuckets, List.length_append]
  have h1 := top10_length_le xs
  by_cases h : 0 < othersCount xs <;> simp [h] <;> omega

theorem pieLabels_eq_buckets (xs : List String) :
    pieLabels xs = (pieBuckets xs).map Prod.fst := by
  rw [pieLabels, pieBuckets, List.map_append]
  by_cases h : 0 < othersCount xs <;> simp [h]

theorem pieSizes_eq_buckets (xs : List String) :
    pieSizes xs = (pieBuckets xs).map Prod.snd := by
  rw [pieSizes, pieBuckets, List.map_append]
  by_cases h : 0 < othersCount xs <;> simp [h]

theorem pieSizes_sum (xs : List String) : (pieSizes xs).sum = xs.length := by
  have h := top10_snd_sum_add_others xs
  rw [pieSizes]
  by_cases h0 : 0 < othersCount xs
  · rw [if_pos h0, List.sum_append]
    simpa using h
  · rw [if_neg h0, List.sum_append]
    push_neg at h0
    have hz : othersCount xs = 0 := Nat.le_zero.mp h0
    simp only [List.sum_nil, List.sum_cons]
    omega

/-- C1: for every input table, both disaster-type pie charts bucket the
category counts into the ten largest categories plus an `Others` bucket:
at most 11 buckets result, the `Others` bucket is present exactly when
more than ten distinct disaster types exist, and the bucket sizes sum to
the sum of the original per-category counts (the number of counted
records). -/
theorem C1_pie_bucketing_at_most_eleven (rows : List Row) (c : String) :
    ((pieLabels (dtypeCol rows)).length ≤ 11
      ∧ (pieSizes (dtypeCol rows)).sum = ((valueCounts (dtypeCol rows)).map Prod.snd).sum
      ∧ (0 < othersCount (dtypeCol rows) ↔ 10 < (dtypeCol rows).dedup.length))
    ∧ ((pieBuckets (dtypeCol (rows.filter (fun r => valEqStr r.country c)))).length ≤ 11
      ∧ ((pieBuckets (dtypeCol (rows.filter (fun r => valEqStr r.country c)))).map Prod.snd).sum
          = ((valueCounts (dtypeCol (rows.filter (fun r => valEqStr r.country c)))).map
              Prod.snd).sum
      ∧ (0 < othersCount (dtypeCol (rows.filter (fun r => valEqStr r.country c)))
          ↔ 10 < (dtypeCol (rows.filter (fun r => valEqStr r.country c))).dedup.length)) := by
  constructor
  · refine ⟨?_, ?_, others_pos_iff _⟩
    · rw [pieLabels_eq_buckets, List.length_map]
      exact pieBuckets_length_le _
    · rw [pieSizes_sum, valueCounts_snd_sum]
  · refine ⟨pieBuckets_length_le _, ?_, others_pos_iff _⟩
    rw [← pieSizes_eq_buckets, pieSizes_sum, valueCounts_snd_sum]

end Emdat

namespace Emdat

theorem valEqStr_iff (v : Val) (s : String) : valEqStr v s = true ↔ v = Val.str s := by
  cases v <;> simp [valEqStr]

theorem trendPred_iff (r : Row) (s e : Int) (t : String) :
    (valGeInt r.start_year s && valLeInt r.start_year e && valEqStr r.disaster_type t) = true
      ↔ (∃ y : Int, r.start_year = Val.int y ∧ s ≤ y ∧ y ≤ e)
          ∧ r.disaster_type = Val.str t := by
  cases hy : r.start_year <;> cases ht : r.disaster_type <;>
    simp [valGeInt, valLeInt, valEqStr, and_assoc]

/-- C3: the filter of the trend renderer keeps exactly the rows of the
prepared frame whose start year lies in the selected range, endpoints
included (and whose type is the selected one — the third conjunct of the
same filter); every row outside the range is excluded. -/
theorem C3_year_range_filter_inclusive (rows : List Row) (s e : Int) (t : String) (r : Row) :
    r ∈ trendFiltered rows s e t ↔
      r ∈ trendPrep rows
        ∧ (∃ y : Int, r.start_year = Val.int y ∧ s ≤ y ∧ y ≤ e)
        ∧ r.disaster_type = Val.str t := by
  rw [trendFiltered, List.mem_filter]
  exact and_congr_right (fun _ => trendPred_iff r s e t)

/-- C4: three Flood records with start years 2000, 2000 and 2001 produce
the yearly trend counts 2 for 2000 and 1 for 2001 over the range
[2000, 2001]. -/
theorem C4_flood_trend_example :
    trendCounts [floodA, floodB, floodC] 2000 2001 "Flood" = [(2000, 2), (2001, 1)] := by
  decide

/-- C5: the option list for Disaster B never contains the category chosen
as Disaster A, for every table and every choice of Disaster A. -/
theorem C5_disaster_b_never_equals_a (rows : List Row) (a : String) :
    a ∉ disasterBOptions (disasterTypes rows) a := by
  intro h
  have hb := (List.mem_filter.mp h).2
  simp at hb

/-- C8: when fewer than two distinct non-null disaster types exist, the
comparison-table renderer emits only the `Not enough disaster types`
warning and returns without rendering any comparison. -/
theorem C8_too_few_types_guard (rows : List Row) (a : String)
    (h : (disasterTypes rows).length < 2) :
    comparisonRender rows a
      = [ROut.warning "Not enough disaster types available for comparison."] := by
  simp only [comparisonRender]
  rw [if_pos h]

theorem C8_too_few_types_guard_witness :
    (disasterTypes [floodA]).length < 2
      ∧ comparisonRender [floodA] "Flood"
          = [ROut.warning "Not enough disaster types available for comparison."] :=
  ⟨by decide, C8_too_few_types_guard [floodA] "Flood" (by decide)⟩

/-- C9: on the country-wise data page, selecting `All Countries` displays
the table unchanged, and selecting any other value displays exactly the
rows whose country equals the selection. -/
theorem C9_country_filter_identity_or_exact (rows : List Row) (sel : String) (r : Row) :
    (sel = "All Countries" → countryPageFilter rows sel = rows)
      ∧ (sel ≠ "All Countries" →
          (r ∈ countryPageFilter rows sel ↔ r ∈ rows ∧ r.country = Val.str sel)) := by
  constructor
  · intro h
    rw [countryPageFilter, if_pos h]
  · intro h
    rw [countryPageFilter, if_neg h, List.mem_filter]
    exact and_congr_right (fun _ => valEqStr_iff r.country sel)

theorem C9_country_filter_identity_or_exact_witness :
    countryPageFilter [floodA, badYearRow] "All Countries" = [floodA, badYearRow]
      ∧ ("Japan" ≠ "All Countries")
      ∧ (floodA ∈ countryPageFilter [floodA, badYearRow] "Japan"
          ↔ floodA ∈ [floodA, badYearRow] ∧ floodA.country = Val.str "Japan") :=
  ⟨(C9_country_filter_identity_or_exact [floodA, badYearRow] "All Countries" floodA).1 rfl,
   by decide,
   (C9_country_filter_identity_or_exact [floodA, badYearRow] "Japan" floodA).2 (by decide)⟩

/-- C10: the impact bar chart's per-type sums are sorted in ascending
order of the summed metric value, for every table and metric. -/
theorem C10_bar_chart_sorted_ascending (rows : List Row) (m : String) :
    List.Pairwise (fun p q : String × Int => p.2 ≤ q.2) (barGrouped rows m) :=
  List.sorted_insertionSort sumAsc ((barKeys rows m).map (fun t => (t, barGroupSum rows m t)))

end Emdat

namespace Emdat

/-- C7 counterexample: on an empty table the bar chart's filtered result
is empty, yet `bar_chart_disaster_vs_impact` emits no warning — it only
draws the (empty) chart. -/
theorem C7_bar_chart_missing_warning_counterexample :
    (barFiltered [] "impact_info.total_deaths").isEmpty = true
      ∧ barChartRender [] "impact_info.total_deaths" = [ROut.chart]
      ∧ (barChartRender [] "impact_info.total_deaths").all (fun o => !(isWarning o)) = true := by
  decide

/-- C7 (amended): the trend renderer and the country-scoped pie chart
emit a user-visible warning on an empty filtered result and complete
normally; the impact bar chart also completes normally but draws an empty
chart without any warning. -/
theorem C7_empty_result_handling (rows : List Row) (s e : Int) (t c m : String) :
    ((trendCounts rows s e t).isEmpty = true →
        lineTrendRender rows s e t = [ROut.warning "⚠️ No Records found."])
      ∧ ((rows.filter (fun r => valEqStr r.country c)).isEmpty = true →
          pieByCountryRender rows c
            = [ROut.warning ("No disaster data available for " ++ c ++ ".")])
      ∧ barChartRender rows m = [ROut.chart]
      ∧ (barChartRender rows m).all (fun o => !(isWarning o)) = true := by
  refine ⟨?_, ?_, rfl, rfl⟩
  · intro h
    rw [lineTrendRender, if_pos h]
  · intro h
    rw [pieByCountryRender, if_pos h]

theorem C7_empty_result_handling_witness :
    (trendCounts [] 2000 2001 "Flood").isEmpty = true
      ∧ lineTrendRender [] 2000 2001 "Flood" = [ROut.warning "⚠️ No Records found."]
      ∧ (([] : List Row).filter (fun r => valEqStr r.country "Japan")).isEmpty = true
      ∧ pieByCountryRender [] "Japan"
          = [ROut.warning ("No disaster data available for " ++ "Japan" ++ ".")] :=
  ⟨by decide,
   (C7_empty_result_handling [] 2000 2001 "Flood" "Japan" "impact_info.total_deaths").1
     (by decide),
   by decide,
   (C7_empty_result_handling [] 2000 2001 "Flood" "Japan" "impact_info.total_deaths").2.1
     (by decide)⟩

end Emdat

namespace Emdat

/-! ## Numeric-coercion lemmas (for C6) -/

theorem numOpt_toNumeric (v : Val) : numOpt (toNumeric v) = numOpt v := by
  cases v with
  | null => rfl
  | int n => rfl
  | str s =>
    rw [numOpt, toNumeric]
    cases h : parseInt? s <;> simp [numOpt, toNumeric, h]

theorem isNumV_toNumeric (v : Val) : isNumV (toNumeric v) = (numOpt v).isSome := by
  cases v with
  | null => rfl
  | int n => rfl
  | str s =>
    rw [toNumeric, numOpt, toNumeric]
    cases h : parseInt? s <;> simp [isNumV]

theorem lookup_map_coerce_single (ps : List (String × Val)) (m : String) :
    (ps.map (fun p => if p.1 = m then (p.1, toNumeric p.2) else p)).lookup m
      = (ps.lookup m).map toNumeric := by
  induction ps with
  | nil => rfl
  | cons p ps ih =>
    obtain ⟨k, v⟩ := p
    rw [List.map_cons]
    by_cases h : k = m
    · subst h
      rw [if_pos rfl]
      simp [List.lookup, ih]
    · have hbeq : (m == k) = false := beq_eq_false_iff_ne.mpr (fun e => h e.symm)
      rw [if_neg h]
      simp [List.lookup, hbeq, ih]

theorem getMetric_barCoerceRow (r : Row) (m : String) :
    getMetric (barCoerceRow r m) m = toNumeric (getMetric r m) := by
  rw [getMetric, getMetric, barCoerceRow]
  rw [show ({ r with metricCols :=
        r.metricCols.map (fun p => if p.1 = m then (p.1, toNumeric p.2) else p) } : Row).metricCols
      = r.metricCols.map (fun p => if p.1 = m then (p.1, toNumeric p.2) else p) from rfl]
  rw [lookup_map_coerce_single]
  cases r.metricCols.lookup m <;> simp [toNumeric]

theorem lookup_coerceMetrics (ps : List (String × Val)) (m : String) (hm : m ∈ metrics) :
    (coerceMetrics ps).lookup m = (ps.lookup m).map toNumeric := by
  induction ps with
  | nil => rfl
  | cons p ps ih =>
    obtain ⟨k, v⟩ := p
    rw [coerceMetrics, List.map_cons]
    rw [show coerceMetrics ps
        = ps.map (fun p => if p.1 ∈ metrics then (p.1, toNumeric p.2) else p) from rfl] at ih
    by_cases h : k = m
    · subst h
      rw [if_pos hm]
      simp [List.lookup, ih]
    · have hbeq : (m == k) = false := beq_eq_false_iff_ne.mpr (fun e => h e.symm)
      by_cases hp : k ∈ metrics
      · rw [if_pos hp]
        simp [List.lookup, hbeq, ih]
      · rw [if_neg hp]
        simp [List.lookup, hbeq, ih]

theorem getMetric_compCoerceRow (r : Row) (m : String) (hm : m ∈ metrics) :
    getMetric (compCoerceRow r) m = toNumeric (getMetric r m) := by
  rw [getMetric, getMetric, compCoerceRow]
  rw [show ({ r with metricCols := coerceMetrics r.metricCols } : Row).metricCols
      = coerceMetrics r.metricCols from rfl]
  rw [lookup_coerceMetrics r.metricCols m hm]
  cases r.metricCols.lookup m <;> simp [toNumeric]

theorem filterMap_filter_of_none {α β : Type} (p : α → Bool) (f : α → Option β)
    (h : ∀ a, p a = false → f a = none) (l : List α) :
    (l.filter p).filterMap f = l.filterMap f := by
  induction l with
  | nil => rfl
  | cons a l ih =>
    cases hp : p a
    · simp [List.filter_cons, hp, List.filterMap_cons, h a hp, ih]
    · simp [List.filter_cons, hp, List.filterMap_cons, ih]

theorem barVals_eq (rows : List Row) (m t : String) :
    ((barFiltered rows m).filter (fun r => valEqStr r.disaster_type t)).filterMap
        (fun r => numOpt (getMetric r m))
      = (rows.filter (fun r => valEqStr r.disaster_type t)).filterMap
          (fun r => numOpt (getMetric r m)) := by
  rw [barFiltered, barCoerceCol]
  rw [List.filter_map, List.filter_map, List.filterMap_map, List.filter_comm]
  rw [filterMap_filter_of_none
    ((fun r => isNumV (getMetric r m)) ∘ (fun r => barCoerceRow r m))
    ((fun r => numOpt (getMetric r m)) ∘ (fun r => barCoerceRow r m))
    (fun a ha => by
      have hs : (numOpt (getMetric a m)).isSome = false := by
        rw [← isNumV_toNumeric, ← getMetric_barCoerceRow]
        exact ha
      show numOpt (getMetric (barCoerceRow a m) m) = none
      rw [getMetric_barCoerceRow, numOpt_toNumeric]
      cases ho : numOpt (getMetric a m) <;> simp_all)]
  rw [List.filterMap_congr (fun x _ => by
    show numOpt (getMetric (barCoerceRow x m) m) = numOpt (getMetric x m)
    rw [getMetric_barCoerceRow, numOpt_toNumeric])]
  exact congrArg _ (List.filter_congr fun x _ => rfl)

theorem hasAnyMetric_false_numOpt (r : Row) (m : String) (hm : m ∈ metrics)
    (h : hasAnyMetric (compCoerceRow r) = false) :
    numOpt (getMetric r m) = none := by
  rw [hasAnyMetric] at h
  have h2 := (List.any_eq_false.mp h) m hm
  rw [getMetric_compCoerceRow r m hm, isNumV_toNumeric] at h2
  cases ho : numOpt (getMetric r m) <;> simp_all

theorem compMeanVals_eq (rows : List Row) (t m : String) (hm : m ∈ metrics) :
    compMeanVals rows t m
      = (rows.filter (fun r => valEqStr r.disaster_type t)).filterMap
          (fun r => numOpt (getMetric r m)) := by
  rw [compMeanVals, compPrep, comparisonEffect]
  rw [List.filter_map, List.filter_map, List.filterMap_map, List.filter_comm]
  rw [filterMap_filter_of_none (hasAnyMetric ∘ compCoerceRow)
    ((fun r => numOpt (getMetric r m)) ∘ compCoerceRow)
    (fun a ha => by
      show numOpt (getMetric (compCoerceRow a) m) = none
      rw [getMetric_compCoerceRow a m hm, numOpt_toNumeric]
      exact hasAnyMetric_false_numOpt a m hm ha)]
  rw [List.filterMap_congr (fun x _ => by
    show numOpt (getMetric (compCoerceRow x) m) = numOpt (getMetric x m)
    rw [getMetric_compCoerceRow x m hm, numOpt_toNumeric])]
  exact congrArg _ (List.filter_congr fun x _ => rfl)

/-- C6: both numeric aggregations skip exactly the rows whose cell in the
aggregated column fails numeric coercion — the bar chart's per-type sum
and the comparison table's per-type mean equal the sum, respectively the
mean, over the coercion-succeeding rows of that type; both are total
functions, so the aggregation never throws. -/
theorem C6_nonnumeric_rows_excluded (rows : List Row) (m t : String) (hm : m ∈ metrics) :
    barGroupSum rows m t
        = ((rows.filter (fun r => valEqStr r.disaster_type t)).filterMap
            (fun r => numOpt (getMetric r m))).sum
      ∧ compMean rows t m
        = meanList ((rows.filter (fun r => valEqStr r.disaster_type t)).filterMap
            (fun r => numOpt (getMetric r m))) :=
  ⟨congrArg List.sum (barVals_eq rows m t),
   congrArg meanList (compMeanVals_eq rows t m hm)⟩

theorem C6_nonnumeric_rows_excluded_witness :
    ("impact_info.total_deaths" ∈ metrics)
      ∧ (barGroupSum [floodA, floodB, floodC] "impact_info.total_deaths" "Flood"
          = (([floodA, floodB, floodC].filter
                (fun r => valEqStr r.disaster_type "Flood")).filterMap
              (fun r => numOpt (getMetric r "impact_info.total_deaths"))).sum
        ∧ compMean [floodA, floodB, floodC] "Flood" "impact_info.total_deaths"
          = meanList (([floodA, floodB, floodC].filter
                (fun r => valEqStr r.disaster_type "Flood")).filterMap
              (fun r => numOpt (getMetric r "impact_info.total_deaths")))) :=
  ⟨by decide,
   C6_nonnumeric_rows_excluded [floodA, floodB, floodC] "impact_info.total_deaths" "Flood"
     (by decide)⟩

end Emdat
